import Mathlib

/-!
Verification of the configuration-resolution and dispatch engine of
`jupyter_core` (`jupyter_core/application.py`), shallowly embedded in Lean.

The embedding models `JupyterApp` as a pure state-passing program over an
explicit environment: traitlets traits after command-line parsing, the injected
collaborators (`which`, the traitlets super-class config loader, the filesystem
existence test, interactive input), and the observable effects (which loader
calls were made, whether migration ran, what `os.execv` received, whether
`NoStart` was raised).
-/

/-- A `(section, field)` key of a traitlets `Config` object. -/
abbrev SectionField := String × String

/-- A parsed configuration: an association list from `(section, field)` to a
value; lookup takes the first match. -/
abbrev Config := List (SectionField × String)

/-- Look up a `(section, field)` entry; the first binding wins. -/
def lookupCfg : Config → SectionField → Option String
  | [], _ => none
  | (k', v) :: rest, k => if k = k' then some v else lookupCfg rest k

/-- `self.update_config(incoming)`: merge `incoming` into the current config,
the incoming values winning on conflicts (traitlets `Config.merge` semantics
restricted to leaf values). -/
def update_config (self incoming : Config) : Config :=
  incoming ++ self

/-- Result of one underlying `Application.load_config_file` call (the traitlets
super-class loader, `src/jupyter_core/application.py` delegates to it):
found-and-parsed, not found (`ConfigFileNotFound`), or found-but-invalid
(any other exception, carrying its message). -/
inductive LoadResult
  | found (c : Config)
  | notFound
  | invalid (e : String)
deriving DecidableEq

/-- The environment a `JupyterApp` runs in: its traits as they stand after
command-line parsing, and its injected collaborators. -/
structure AppEnv where
  /-- `self.name`, the family name (`'jupyter'` by default). -/
  name : String
  /-- `shutil.which`: find an executable on the search path. -/
  which : String → Option String
  /-- the config produced by `parse_command_line` (so `deepcopy(self.config)`
  taken right after parsing equals this). -/
  clConfig : Config
  /-- the `generate_config` flag as set by parsing. -/
  generate_config : Bool
  /-- whether an embedded sub-application was selected by parsing. -/
  subapp : Bool
  /-- the traitlets `Application.load_config_file(name, path)` collaborator. -/
  superLoad : String → List String → LoadResult
  /-- the `config_file` trait (explicit full path), `none` when unset. -/
  config_file : Option String
  /-- the `config_file_name` trait. -/
  config_file_name : String
  /-- the `jupyter_config_path()` provider result. -/
  jupyter_config_path : List String
  /-- the `config_dir` trait. -/
  config_dir : String
  /-- `py3compat.getcwd()`. -/
  cwd : String

/-- `JupyterApp.config_file_paths` (application.py 75-81):
`path = jupyter_config_path()`;
`if self.config_dir not in path: path.insert(0, self.config_dir)`;
`path.insert(0, py3compat.getcwd())`; `return path`. -/
def config_file_paths (provider : List String) (config_dir cwd : String) : List String :=
  let path := if config_dir ∈ provider then provider else config_dir :: provider
  cwd :: path

/-- `os.path.split`: split a path at its last separator into
(containing directory, file name); trailing separators are stripped from the
directory part unless it consists only of separators. -/
def path_split (p : String) : String × String :=
  let cs := p.data
  let tail := (cs.reverse.takeWhile (fun c => c ≠ '/')).reverse
  let headRaw := cs.take (cs.length - tail.length)
  let head :=
    if headRaw.all (fun c => c = '/') then headRaw
    else (headRaw.reverse.dropWhile (fun c => c = '/')).reverse
  (String.mk head, String.mk tail)

/-- The base logical config name shared by the family:
`base_config = 'jupyter_config'` (application.py 173). -/
def base_config : String := "jupyter_config"

/-- Observable outcome of `JupyterApp.load_config_file`: the resulting config,
the trace of underlying loader calls as `(logical name, search path)` pairs in
order, and the exception that propagated to the caller, if any. -/
structure LoadOutcome where
  config : Config
  calls : List (String × List String)
  error : Option String
deriving DecidableEq

/-- The second `try` block of `JupyterApp.load_config_file`
(application.py 193-205): load the app-specific source `name` from `path`;
`ConfigFileNotFound` is logged at debug level and swallowed, any other failure
is re-raised unless `suppress_errors` (in which case it is logged as a warning
and swallowed). -/
def load_app_source (env : AppEnv) (suppress_errors : Bool) (cfg : Config)
    (calls : List (String × List String)) (name : String) (path : List String) :
    LoadOutcome :=
  match env.superLoad name path with
  | LoadResult.found c => ⟨update_config cfg c, calls ++ [(name, path)], none⟩
  | LoadResult.notFound => ⟨cfg, calls ++ [(name, path)], none⟩
  | LoadResult.invalid e =>
      if suppress_errors then ⟨cfg, calls ++ [(name, path)], none⟩
      else ⟨cfg, calls ++ [(name, path)], some e⟩

/-- The app-specific half of `JupyterApp.load_config_file`
(application.py 184-205): an explicit `config_file` contributes its containing
directory as the sole search location and its file name as the logical name;
otherwise an empty `config_file_name`, or one equal to `base_config`, returns
early without a second load. -/
def load_config_file_app (env : AppEnv) (suppress_errors : Bool) (cfg : Config)
    (calls : List (String × List String)) (paths : List String) : LoadOutcome :=
  match env.config_file with
  | some f =>
      load_app_source env suppress_errors cfg calls (path_split f).2 [(path_split f).1]
  | none =>
      if env.config_file_name = "" ∨ env.config_file_name = base_config then
        ⟨cfg, calls, none⟩
      else
        load_app_source env suppress_errors cfg calls env.config_file_name paths

/-- `JupyterApp.load_config_file(suppress_errors=True)` (application.py
165-205). First loads the base source `jupyter_config` from the full search
path, catching only `ConfigFileNotFound`; any other exception from the base
load propagates. Then loads the app-specific source via
`load_config_file_app`. -/
def load_config_file (env : AppEnv) (suppress_errors : Bool) (cfg : Config) : LoadOutcome :=
  match env.superLoad base_config
      (config_file_paths env.jupyter_config_path env.config_dir env.cwd) with
  | LoadResult.invalid e =>
      ⟨cfg, [(base_config, config_file_paths env.jupyter_config_path env.config_dir env.cwd)],
        some e⟩
  | LoadResult.notFound =>
      load_config_file_app env suppress_errors cfg
        [(base_config, config_file_paths env.jupyter_config_path env.config_dir env.cwd)]
        (config_file_paths env.jupyter_config_path env.config_dir env.cwd)
  | LoadResult.found c =>
      load_config_file_app env suppress_errors (update_config cfg c)
        [(base_config, config_file_paths env.jupyter_config_path env.config_dir env.cwd)]
        (config_file_paths env.jupyter_config_path env.config_dir env.cwd)

/-- `JupyterApp._find_subcommand(name)` (application.py 208-210):
`which('{self.name}-{name}')`. -/
def find_subcommand (env : AppEnv) (arg : String) : Option String :=
  env.which (env.name ++ "-" ++ arg)

/-- `JupyterApp._dispatching` (application.py 212-218):
`bool(self.generate_config or self.subapp or self.subcommand)`
(`subcommand` is a string trait defaulting to `''`; `none` models unset). -/
def dispatching (env : AppEnv) (subcommand : Option String) : Bool :=
  env.generate_config || env.subapp || subcommand.isSome

/-- Observable outcome of `JupyterApp.initialize`: the `subcommand` and `argv`
traits it set, whether `parse_command_line` ran, how many times
`migrate_config` was invoked, the trace of underlying config-loader calls, the
final `self.config`, and any exception that escaped. -/
structure InitResult where
  subcommand : Option String
  argv : List String
  parseCalled : Bool
  migrateCalls : Nat
  loadCalls : List (String × List String)
  config : Config
  error : Option String
deriving DecidableEq

/-- The tail of `JupyterApp.initialize` after the subcommand short-circuit
(application.py 233-240): `parse_command_line(argv)`, snapshot
`cl_config = deepcopy(self.config)`, return if `self._dispatching`, else
`migrate_config(); load_config_file(); update_config(cl_config)`. -/
def jupyter_init_primary (env : AppEnv) : InitResult :=
  if dispatching env none then
    ⟨none, [], true, 0, [], env.clConfig, none⟩
  else
    match (load_config_file env true env.clConfig).error with
    | some e =>
        ⟨none, [], true, 1, (load_config_file env true env.clConfig).calls,
          (load_config_file env true env.clConfig).config, some e⟩
    | none =>
        ⟨none, [], true, 1, (load_config_file env true env.clConfig).calls,
          update_config (load_config_file env true env.clConfig).config env.clConfig, none⟩

/-- `JupyterApp.initialize(argv)` (application.py 222-240): if `argv` is
non-empty and `_find_subcommand(argv[0])` resolves, record `self.argv = argv`
and `self.subcommand` and return at once; otherwise continue with
`jupyter_init_primary`. -/
def jupyter_init (env : AppEnv) (argv : List String) : InitResult :=
  match argv with
  | [] => jupyter_init_primary env
  | a :: _ =>
    match find_subcommand env a with
    | some subc => ⟨some subc, argv, false, 0, [], [], none⟩
    | none => jupyter_init_primary env

/-- Observable outcome of `JupyterApp.start` (application.py 243-255):
`exec` is the `(program, full argv)` pair handed to `os.execv` (terminal:
the process image is replaced), `subappStarted` and `wroteConfig` record the
delegations, `noStart` records whether `NoStart` was raised. -/
structure StartOutcome where
  exec : Option (String × List String)
  subappStarted : Bool
  wroteConfig : Bool
  noStart : Bool
deriving DecidableEq

/-- `JupyterApp.start` (application.py 243-255): a resolved subcommand is
handed to `os.execv(self.subcommand, [self.subcommand] + self.argv[1:])`,
which never returns; else a selected subapp is started and `NoStart` raised;
else the `generate_config` flag triggers `write_default_config` and `NoStart`;
else normal continuation. -/
def start (env : AppEnv) (subcommand : Option String) (argv : List String) : StartOutcome :=
  match subcommand with
  | some sc => ⟨some (sc, sc :: argv.tail), false, false, false⟩
  | none =>
    if env.subapp then ⟨none, true, false, true⟩
    else if env.generate_config then ⟨none, false, true, true⟩
    else ⟨none, false, false, false⟩

/-- Result of `JupyterApp.launch_instance` (application.py 257-263). -/
inductive LaunchResult
  | execd (prog : String) (args : List String)
  | finished
  | running (config : Config)
  | failed (e : String)
deriving DecidableEq

/-- `JupyterApp.launch_instance(argv)` (application.py 257-263): run
`initialize` then `start` (via the traitlets super-class), catching `NoStart`
and returning normally (`finished`); config errors escape as `failed`;
an `os.execv` handoff is terminal (`execd`). -/
def launch_instance (env : AppEnv) (argv : List String) : LaunchResult :=
  match (jupyter_init env argv).error with
  | some e => LaunchResult.failed e
  | none =>
    match (start env (jupyter_init env argv).subcommand (jupyter_init env argv).argv).exec with
    | some pa => LaunchResult.execd pa.1 pa.2
    | none =>
      if (start env (jupyter_init env argv).subcommand (jupyter_init env argv).argv).noStart
      then LaunchResult.finished
      else LaunchResult.running (jupyter_init env argv).config

/-- One line of interactive input at the overwrite prompt: text entered by the
user, or a `KeyboardInterrupt`. -/
inductive PromptInput
  | text (s : String)
  | interrupt
deriving DecidableEq

/-- Python `str.lower()`, modelled over the character list (kernel-reducible
stand-in for `String.toLower`). -/
def str_lower (s : String) : String := String.mk (s.data.map Char.toLower)

/-- Python `str.startswith(t)`, modelled over the character lists. -/
def str_starts (s t : String) : Bool := List.isPrefixOf t.data s.data

/-- The inner `ask()` of `write_default_config` (application.py 128-134):
`input(prompt).lower() or 'n'`, with `KeyboardInterrupt` caught and mapped to
`'n'`. -/
def ask (i : PromptInput) : String :=
  match i with
  | PromptInput.text s => if str_lower s = "" then "n" else str_lower s
  | PromptInput.interrupt => "n"

/-- The prompt loop of `write_default_config` (application.py 135-138):
`answer = ask()`; `while not answer.startswith(('y', 'n')): print(...);
answer = ask()`. Returns the accepted answer together with the number of
`ask()` calls made, or `none` when the scripted input runs out before an
answer is accepted. -/
def prompt_loop : List PromptInput → Option (String × Nat)
  | [] => none
  | i :: rest =>
    if str_starts (ask i) "y" || str_starts (ask i) "n" then some (ask i, 1)
    else (prompt_loop rest).map (fun p => (p.1, p.2 + 1))

/-- Environment for `write_default_config`: the relevant traits, the
filesystem existence test, and the scripted interactive input. -/
structure WriteEnv where
  config_file : Option String
  config_dir : String
  config_file_name : String
  answer_yes : Bool
  path_exists : String → Bool
  prompt_input : List PromptInput

/-- Outcome of `write_default_config`: the file written at a path, a normal
no-op return after a "no" answer, or scripted input exhausted (the model's
stand-in for a prompt that never receives an acceptable answer). -/
inductive WriteOutcome
  | wrote (path : String)
  | aborted
  | inputExhausted
deriving DecidableEq

/-- The target path of `write_default_config` (application.py 121-124):
`self.config_file` if set, else
`os.path.join(self.config_dir, self.config_file_name + '.py')`. -/
def write_target (env : WriteEnv) : String :=
  match env.config_file with
  | some f => f
  | none => env.config_dir ++ "/" ++ env.config_file_name ++ ".py"

/-- `JupyterApp.write_default_config` (application.py 119-148), with the
rendering and file write abstracted to the `wrote` outcome: if the target
exists and `answer_yes` is not set, run the prompt loop; an accepted answer
starting with `'n'` returns without writing, otherwise the file is written. -/
def write_default_config (env : WriteEnv) : WriteOutcome :=
  let cf := write_target env
  if env.path_exists cf && !env.answer_yes then
    match prompt_loop env.prompt_input with
    | none => WriteOutcome.inputExhausted
    | some (answer, _) =>
        if str_starts answer "n" then WriteOutcome.aborted
        else WriteOutcome.wrote cf
  else WriteOutcome.wrote cf

/-! ## Helper lemmas -/

/-- Lookup in a concatenation takes the left map's binding when present. -/
theorem lookupCfg_append (a b : Config) (k : SectionField) :
    lookupCfg (a ++ b) k = (lookupCfg a k).or (lookupCfg b k) := by
  induction a with
  | nil => simp [lookupCfg, Option.or]
  | cons hd tl ih =>
    obtain ⟨k', v'⟩ := hd
    by_cases hk : k = k' <;> simp [lookupCfg, hk, ih, Option.or]

/-- A key bound in `incoming` keeps its `incoming` value after `update_config`. -/
theorem lookupCfg_update_config (self incoming : Config) (k : SectionField) (v : String)
    (h : lookupCfg incoming k = some v) :
    lookupCfg (update_config self incoming) k = some v := by
  unfold update_config
  rw [lookupCfg_append, h]
  rfl

/-! ## Claims -/

/-- C7: every value returned by `config_file_paths` has the current working
directory as its first element and contains `config_dir`; `config_dir` is
prepended to the provider paths exactly when it is not already a member, while
the working directory is prepended unconditionally, even when it duplicates an
existing member. -/
theorem config_file_paths_shape (provider : List String) (cd cwd : String) :
    (config_file_paths provider cd cwd).head? = some cwd ∧
    cd ∈ config_file_paths provider cd cwd ∧
    (cd ∉ provider → config_file_paths provider cd cwd = cwd :: cd :: provider) ∧
    (cd ∈ provider → config_file_paths provider cd cwd = cwd :: provider) := by
  unfold config_file_paths
  by_cases h : cd ∈ provider <;> simp [h]

/-- Witness for C7 at concrete inputs: a provider not containing the override
directory, a provider containing it, and a working directory duplicating a
member. -/
theorem config_file_paths_shape_witness :
    config_file_paths ["a"] "b" "c" = ["c", "b", "a"] ∧
    config_file_paths ["b"] "b" "c" = ["c", "b"] ∧
    config_file_paths ["c"] "b" "c" = ["c", "b", "c"] :=
  ⟨(config_file_paths_shape ["a"] "b" "c").2.2.1 (by decide),
   (config_file_paths_shape ["b"] "b" "c").2.2.2 (by decide),
   (config_file_paths_shape ["c"] "b" "c").2.2.1 (by decide)⟩

/-- In any run that ends with `subcommand = none`, `initialize` took the
`jupyter_init_primary` path. -/
theorem jupyter_init_eq_primary (env : AppEnv) (argv : List String)
    (hsub : (jupyter_init env argv).subcommand = none) :
    jupyter_init env argv = jupyter_init_primary env := by
  cases argv with
  | nil => rfl
  | cons a rest =>
    cases hfs : find_subcommand env a with
    | some s => simp only [jupyter_init, hfs] at hsub; exact absurd hsub (by simp)
    | none => simp only [jupyter_init, hfs]

/-- C1: command-line override supremacy. For every run reaching the
continue-as-primary path of `initialize` (no external subcommand resolved, not
dispatching, no config-load error), every `(section, field)` entry present in
the command-line snapshot keeps exactly its command-line value in the final
effective configuration, whatever the base and app-specific config files
contain. -/
theorem cl_override_supremacy (env : AppEnv) (argv : List String)
    (k : SectionField) (v : String)
    (hsub : (jupyter_init env argv).subcommand = none)
    (hdisp : dispatching env none = false)
    (herr : (jupyter_init env argv).error = none)
    (hcl : lookupCfg env.clConfig k = some v) :
    lookupCfg (jupyter_init env argv).config k = some v := by
  rw [jupyter_init_eq_primary env argv hsub] at herr ⊢
  unfold jupyter_init_primary at herr ⊢
  rw [hdisp] at herr ⊢
  simp only [Bool.false_eq_true, if_false] at herr ⊢
  cases hlo : (load_config_file env true env.clConfig).error with
  | some e => rw [hlo] at herr; simp at herr
  | none =>
    exact lookupCfg_update_config _ _ k v hcl

/-- A concrete environment for witnesses: family name `jupyter`, command line
setting `(App, x) = 3`, every config file on disk parsing to `(App, x) = 1`,
no executable found on the search path. -/
def envPrimary : AppEnv :=
  { name := "jupyter"
    which := fun _ => none
    clConfig := [(("App", "x"), "3")]
    generate_config := false
    subapp := false
    superLoad := fun _ _ => LoadResult.found [(("App", "x"), "1")]
    config_file := none
    config_file_name := "myapp_config"
    jupyter_config_path := ["sys"]
    config_dir := "cfgdir"
    cwd := "cwd" }

/-- Witness for C1: in `envPrimary` the config files set `(App, x) = 1` but the
command line set `(App, x) = 3`, and the effective configuration keeps `3`. -/
theorem cl_override_supremacy_witness :
    (jupyter_init envPrimary []).subcommand = none ∧
    dispatching envPrimary none = false ∧
    (jupyter_init envPrimary []).error = none ∧
    lookupCfg envPrimary.clConfig ("App", "x") = some "3" ∧
    lookupCfg (jupyter_init envPrimary []).config ("App", "x") = some "3" :=
  ⟨rfl, rfl, rfl, rfl,
    cl_override_supremacy envPrimary [] ("App", "x") "3" rfl rfl rfl rfl⟩

/-- C2: external-subcommand short-circuit. Whenever the first token of a
non-empty argv resolves (as `name-token`) to an executable, `initialize`
records the subcommand and the original argv and returns with
`parse_command_line` never run, zero `migrate_config` calls and zero config
loads; and `start` hands `os.execv` the executable with exactly `argv[1:]`
forwarded after it. -/
theorem subcommand_short_circuit (env : AppEnv) (a : String) (rest : List String) (exe : String)
    (h : env.which (env.name ++ "-" ++ a) = some exe) :
    jupyter_init env (a :: rest) =
      ⟨some exe, a :: rest, false, 0, [], [], none⟩ ∧
    (start env (jupyter_init env (a :: rest)).subcommand
        (jupyter_init env (a :: rest)).argv).exec = some (exe, exe :: rest) := by
  have hinit : jupyter_init env (a :: rest) =
      ⟨some exe, a :: rest, false, 0, [], [], none⟩ := by
    simp only [jupyter_init, find_subcommand, h]
  refine ⟨hinit, ?_⟩
  rw [hinit]
  rfl

/-- An environment where `jupyter-notebook` exists on the search path. -/
def envSub : AppEnv :=
  { envPrimary with
    which := fun s =>
      if s = "jupyter-notebook" then some "/usr/bin/jupyter-notebook" else none }

/-- Witness for C2: `jupyter notebook --port=9` with `jupyter-notebook` on the
path short-circuits and execs `jupyter-notebook` with `--port=9` forwarded. -/
theorem subcommand_short_circuit_witness :
    jupyter_init envSub ["notebook", "--port=9"] =
      ⟨some "/usr/bin/jupyter-notebook", ["notebook", "--port=9"], false, 0, [], [], none⟩ ∧
    (start envSub (jupyter_init envSub ["notebook", "--port=9"]).subcommand
        (jupyter_init envSub ["notebook", "--port=9"]).argv).exec =
      some ("/usr/bin/jupyter-notebook", ["/usr/bin/jupyter-notebook", "--port=9"]) :=
  subcommand_short_circuit envSub "notebook" ["--port=9"] "/usr/bin/jupyter-notebook" rfl

/-- C3: dispatching states skip resolution. In every run that passes the
subcommand check and in which `_dispatching` holds after parsing (generate
config requested, or a subapp selected, or a subcommand designated),
`initialize` returns with zero `migrate_config` calls and zero underlying
config-loader calls. -/
theorem dispatching_skips_resolution (env : AppEnv) (argv : List String)
    (hsub : (jupyter_init env argv).subcommand = none)
    (hdisp : dispatching env none = true) :
    (jupyter_init env argv).migrateCalls = 0 ∧ (jupyter_init env argv).loadCalls = [] := by
  rw [jupyter_init_eq_primary env argv hsub]
  unfold jupyter_init_primary
  rw [hdisp]
  exact ⟨rfl, rfl⟩

/-- An environment in which the generate-config flag was set by parsing. -/
def envGen : AppEnv := { envPrimary with generate_config := true }

/-- Witness for C3: with `--generate-config` parsed, neither migration nor any
config load happens. -/
theorem dispatching_skips_resolution_witness :
    (jupyter_init envGen ["--generate-config"]).migrateCalls = 0 ∧
    (jupyter_init envGen ["--generate-config"]).loadCalls = [] :=
  dispatching_skips_resolution envGen ["--generate-config"] rfl rfl

/-- An environment whose every config source is found but fails to parse. -/
def envInvalidBase : AppEnv :=
  { envPrimary with superLoad := fun _ _ => LoadResult.invalid "parse error" }

/-- C4 counterexample: with the base source `jupyter_config` found but failing
to parse, the error is NOT suppressed inside `load_config_file` — it
propagates to the caller in lenient mode (`suppress_errors = true`) just as in
strict mode, because only `ConfigFileNotFound` is caught around the base
load. -/
theorem base_invalid_suppressed_cex :
    (load_config_file envInvalidBase true []).error = some "parse error" ∧
    (load_config_file envInvalidBase false []).error = some "parse error" :=
  ⟨rfl, rfl⟩

/-- C4 (amended): if the base/shared source `jupyter_config` is found but
fails to parse, the error propagates to the caller of `load_config_file` in
both lenient and strict mode; only the file-not-found outcome is suppressed
for the base source. -/
theorem base_invalid_propagates (env : AppEnv) (suppress : Bool) (cfg : Config) (e : String)
    (h : env.superLoad base_config
        (config_file_paths env.jupyter_config_path env.config_dir env.cwd) =
      LoadResult.invalid e) :
    (load_config_file env suppress cfg).error = some e := by
  unfold load_config_file
  rw [h]

/-- Witness for the amended C4 at a concrete environment. -/
theorem base_invalid_propagates_witness :
    (load_config_file envInvalidBase true []).error = some "parse error" :=
  base_invalid_propagates envInvalidBase true [] "parse error" rfl

/-- C6: base-name collision skip. When no explicit `config_file` is set and
the app-specific logical name equals the base name `jupyter_config`,
`load_config_file` performs exactly one underlying load call — the base load
over the full search path — and the app-specific load step is skipped. -/
theorem base_name_collision_skip (env : AppEnv) (suppress : Bool) (cfg : Config)
    (h1 : env.config_file = none)
    (h2 : env.config_file_name = base_config) :
    (load_config_file env suppress cfg).calls =
      [(base_config, config_file_paths env.jupyter_config_path env.config_dir env.cwd)] := by
  unfold load_config_file
  cases hb : env.superLoad base_config
      (config_file_paths env.jupyter_config_path env.config_dir env.cwd) with
  | invalid e => rfl
  | notFound => unfold load_config_file_app; rw [h1]; simp [h2]
  | found c => unfold load_config_file_app; rw [h1]; simp [h2]

/-- An environment whose app-specific logical name collides with the base
name. -/
def envCollide : AppEnv := { envPrimary with config_file_name := "jupyter_config" }

/-- Witness for C6 at a concrete environment. -/
theorem base_name_collision_skip_witness :
    (load_config_file envCollide true []).calls =
      [(base_config,
        config_file_paths envCollide.jupyter_config_path envCollide.config_dir envCollide.cwd)] :=
  base_name_collision_skip envCollide true [] rfl rfl

/-- If a single underlying load cannot return found-but-invalid, the
app-source step reports no error in either mode. -/
theorem load_app_source_no_invalid (env : AppEnv) (suppress : Bool) (cfg : Config)
    (calls : List (String × List String)) (name : String) (path : List String)
    (h : ∀ e, env.superLoad name path ≠ LoadResult.invalid e) :
    (load_app_source env suppress cfg calls name path).error = none := by
  unfold load_app_source
  cases ha : env.superLoad name path with
  | found c => rfl
  | notFound => rfl
  | invalid e => exact absurd ha (h e)

/-- If no underlying load returns found-but-invalid, the app-specific half of
`load_config_file` reports no error in either mode. -/
theorem load_config_file_app_no_invalid (env : AppEnv) (suppress : Bool) (cfg : Config)
    (calls : List (String × List String)) (paths : List String)
    (h : ∀ name path e, env.superLoad name path ≠ LoadResult.invalid e) :
    (load_config_file_app env suppress cfg calls paths).error = none := by
  cases hcf : env.config_file with
  | some f =>
    simp only [load_config_file_app, hcf]
    exact load_app_source_no_invalid env suppress cfg calls _ _ (h _ _)
  | none =>
    simp only [load_config_file_app, hcf]
    split
    · rfl
    · exact load_app_source_no_invalid env suppress cfg calls _ _ (h _ _)

/-- C9: absent config is never an error. In every run of `load_config_file`,
lenient or strict, in which the underlying loader never reports
found-but-invalid (so a searched file is either found or absent), no exception
reaches the caller: the file-not-found outcome is caught unconditionally for
both the base and the app-specific source. -/
theorem absent_config_never_raises (env : AppEnv) (suppress : Bool) (cfg : Config)
    (h : ∀ name path e, env.superLoad name path ≠ LoadResult.invalid e) :
    (load_config_file env suppress cfg).error = none := by
  unfold load_config_file
  cases hb : env.superLoad base_config
      (config_file_paths env.jupyter_config_path env.config_dir env.cwd) with
  | invalid e => exact absurd hb (h _ _ e)
  | notFound => exact load_config_file_app_no_invalid env suppress cfg _ _ h
  | found c => exact load_config_file_app_no_invalid env suppress _ _ _ h

/-- An environment in which no config file exists anywhere on the search
path. -/
def envAbsent : AppEnv := { envPrimary with superLoad := fun _ _ => LoadResult.notFound }

/-- Witness for C9: with every source absent, neither lenient nor strict mode
raises. -/
theorem absent_config_never_raises_witness :
    (load_config_file envAbsent true []).error = none ∧
    (load_config_file envAbsent false []).error = none :=
  ⟨absent_config_never_raises envAbsent true [] (fun _ _ _ h => nomatch h),
   absent_config_never_raises envAbsent false [] (fun _ _ _ h => nomatch h)⟩

/-- With an explicit `config_file`, the app-specific step always performs its
load with the file name as logical name and the containing directory as the
sole search location. -/
theorem load_config_file_app_calls_explicit (env : AppEnv) (suppress : Bool) (cfg : Config)
    (calls : List (String × List String)) (paths : List String) (f : String)
    (hcf : env.config_file = some f) :
    (load_config_file_app env suppress cfg calls paths).calls =
      calls ++ [((path_split f).2, [(path_split f).1])] := by
  simp only [load_config_file_app, hcf]
  cases h2 : env.superLoad (path_split f).2 [(path_split f).1] with
  | found c => simp only [load_app_source, h2]
  | notFound => simp only [load_app_source, h2]
  | invalid e =>
    simp only [load_app_source, h2]
    cases suppress <;> rfl

/-- With an explicit `config_file` whose load succeeds, the app-specific step
merges the loaded source on top of the current config. -/
theorem load_config_file_app_config_explicit (env : AppEnv) (suppress : Bool) (cfg : Config)
    (calls : List (String × List String)) (paths : List String) (f : String) (ca : Config)
    (hcf : env.config_file = some f)
    (ha : env.superLoad (path_split f).2 [(path_split f).1] = LoadResult.found ca) :
    (load_config_file_app env suppress cfg calls paths).config = update_config cfg ca := by
  simp only [load_config_file_app, hcf, load_app_source, ha]

/-- C10: even with an explicit `config_file`, `load_config_file` still
searches the base `jupyter_config` source over the full search path first, and
the explicit path replaces only the app-specific step: that step uses the
file's containing directory as its sole search location and the file name as
the logical name, without the skip-when-name-equals-base check; when both
sources are found, the base is applied first and the explicit file on top. -/
theorem explicit_config_file_load (env : AppEnv) (suppress : Bool) (cfg : Config) (f : String)
    (hcf : env.config_file = some f)
    (hb : ∀ e, env.superLoad base_config
        (config_file_paths env.jupyter_config_path env.config_dir env.cwd) ≠
      LoadResult.invalid e) :
    (load_config_file env suppress cfg).calls =
      [(base_config, config_file_paths env.jupyter_config_path env.config_dir env.cwd),
       ((path_split f).2, [(path_split f).1])] ∧
    (∀ cb ca, env.superLoad base_config
          (config_file_paths env.jupyter_config_path env.config_dir env.cwd) =
        LoadResult.found cb →
      env.superLoad (path_split f).2 [(path_split f).1] = LoadResult.found ca →
      (load_config_file env suppress cfg).config =
        update_config (update_config cfg cb) ca) := by
  unfold load_config_file
  cases hbase : env.superLoad base_config
      (config_file_paths env.jupyter_config_path env.config_dir env.cwd) with
  | invalid e => exact absurd hbase (hb e)
  | notFound =>
    refine ⟨load_config_file_app_calls_explicit env suppress cfg _ _ f hcf, ?_⟩
    intro cb ca hfound _
    exact absurd hfound (by simp)
  | found c =>
    refine ⟨load_config_file_app_calls_explicit env suppress (update_config cfg c) _ _ f hcf, ?_⟩
    intro cb ca hfound happ
    injection hfound with hc
    subst hc
    exact load_config_file_app_config_explicit env suppress _ _ _ f ca hcf happ

/-- An environment with an explicit `--config` path whose file name collides
with the base logical name. -/
def envExplicit : AppEnv :=
  { envPrimary with
    config_file := some "dir/jupyter_config"
    superLoad := fun _ _ => LoadResult.notFound }

/-- Witness for C10: with `--config dir/jupyter_config`, the base source is
searched over the full path and then the explicit file is searched in `dir`
under the logical name `jupyter_config` — two loads, even though that name
equals the base name. -/
theorem explicit_config_file_load_witness :
    (load_config_file envExplicit true []).calls =
      [(base_config,
        config_file_paths envExplicit.jupyter_config_path envExplicit.config_dir envExplicit.cwd),
       ((path_split "dir/jupyter_config").2, [(path_split "dir/jupyter_config").1])] ∧
    (path_split "dir/jupyter_config").2 = base_config :=
  ⟨(explicit_config_file_load envExplicit true [] "dir/jupyter_config" rfl
      (fun _ h => nomatch h)).1, by decide⟩

/-- C8: the non-start signal is clean. In every run whose `initialize`
completes without error and whose `start` raises the `NoStart` signal (after
an embedded sub-application handoff or default-config generation),
`launch_instance` catches it at the launch boundary and returns normally —
`NoStart` never escapes `launch_instance`. -/
theorem nostart_caught (env : AppEnv) (argv : List String)
    (herr : (jupyter_init env argv).error = none)
    (hns : (start env (jupyter_init env argv).subcommand
        (jupyter_init env argv).argv).noStart = true) :
    launch_instance env argv = LaunchResult.finished := by
  simp only [launch_instance, herr]
  cases hsc : (jupyter_init env argv).subcommand with
  | some s =>
    rw [hsc] at hns
    simp only [start] at hns
    exact absurd hns (by decide)
  | none =>
    rw [hsc] at hns
    simp only [start] at hns ⊢
    by_cases hsa : env.subapp
    · simp [hsa]
    · by_cases hgc : env.generate_config
      · simp [hsa, hgc]
      · simp [hsa, hgc] at hns

/-- Witness for C8: with `--generate-config` parsed, `start` raises `NoStart`
and `launch_instance` finishes cleanly. -/
theorem nostart_caught_witness :
    launch_instance envGen [] = LaunchResult.finished :=
  nostart_caught envGen [] rfl rfl

/-- A `write_default_config` environment: target pre-exists, `answer_yes` not
set, scripted prompt input a single empty answer. -/
def envWriteEmpty : WriteEnv :=
  { config_file := none
    config_dir := "cfgdir"
    config_file_name := "jupyter_notebook_config"
    answer_yes := false
    path_exists := fun _ => true
    prompt_input := [PromptInput.text ""] }

/-- C5 counterexample: the empty answer — whose lowercased form starts with
neither `'y'` nor `'n'` — is NOT re-prompted: `input(prompt).lower() or 'n'`
turns it into `'n'`, the loop accepts it after a single `ask()` call, and
`write_default_config` returns normally without writing. -/
theorem overwrite_prompt_empty_cex :
    ask (PromptInput.text "") = "n" ∧
    str_starts (str_lower "") "y" = false ∧
    str_starts (str_lower "") "n" = false ∧
    prompt_loop [PromptInput.text ""] = some ("n", 1) ∧
    write_default_config envWriteEmpty = WriteOutcome.aborted := by
  refine ⟨rfl, rfl, rfl, rfl, rfl⟩

/-- C5 (amended): with the target existing and `answer_yes` unset, the gate
repeatedly prompts until an answer is given that is empty (treated as `'n'`)
or whose lowercased form starts with `'y'` or `'n'`, re-prompting with a
guidance message on any other answer; a keyboard interrupt is treated as
answering `'n'`; and an accepted answer starting with `'n'` makes
`write_default_config` return normally with the target left untouched and no
error raised. -/
theorem overwrite_confirmation_gate (env : WriteEnv) (s : String) (i : PromptInput)
    (rest : List PromptInput)
    (hx : env.path_exists (write_target env) = true)
    (hy : env.answer_yes = false)
    (hinput : env.prompt_input = [i])
    (hne : str_lower s ≠ "")
    (hy1 : str_starts (str_lower s) "y" = false)
    (hn1 : str_starts (str_lower s) "n" = false)
    (hn : str_starts (ask i) "n" = true) :
    prompt_loop (PromptInput.text s :: rest) =
      (prompt_loop rest).map (fun p => (p.1, p.2 + 1)) ∧
    ask PromptInput.interrupt = "n" ∧
    write_default_config env = WriteOutcome.aborted := by
  have ha : ask (PromptInput.text s) = str_lower s := by
    simp only [ask, if_neg hne]
  refine ⟨?_, rfl, ?_⟩
  · simp only [prompt_loop, ha, hy1, hn1, Bool.or_self, Bool.false_eq_true, if_false]
  · simp only [write_default_config, hx, hy, Bool.not_false, Bool.and_self, if_true,
      hinput, prompt_loop, hn, Bool.or_true, if_true]

/-- A `write_default_config` environment whose scripted input answers `n`. -/
def envWriteNo : WriteEnv := { envWriteEmpty with prompt_input := [PromptInput.text "n"] }

/-- Witness for the amended C5: the answer `maybe` re-prompts, an interrupt
answers `n`, and the answer `n` aborts the write with the file untouched. -/
theorem overwrite_confirmation_gate_witness :
    prompt_loop [PromptInput.text "maybe"] =
      (prompt_loop []).map (fun p => (p.1, p.2 + 1)) ∧
    ask PromptInput.interrupt = "n" ∧
    write_default_config envWriteNo = WriteOutcome.aborted :=
  overwrite_confirmation_gate envWriteNo "maybe" (PromptInput.text "n") []
    rfl rfl rfl (by decide) (by decide) (by decide) (by decide)
